import Mathlib

/-!
Verification of the typezod schema-matching engine (src/index.ts).

The engine is embedded shallowly:

* `Ty` (the TypeScript compiler's `ts.Type`) is kept abstract: it is a type
  parameter, and every introspection the source performs on a type or symbol
  (`type.getProperty`, `type.getNumberIndexType`, `type.isUnion`, `type.types`,
  `checker.isTypeAssignableTo`, `checker.getTypeOfSymbol`, the well-known type
  accessors, and the module-resolution queries) is a field of the `Checker`
  oracle structure.  Methods that the source calls on a `ts.Type` or
  `ts.Symbol` object are modelled as `Checker` fields taking the type/symbol
  as first argument, since in the compiler they are all backed by the checker.
* A `TypeSchema` is, as in the source, a predicate over (candidate type,
  context) together with an `_isOptional` flag.  The pure combinators
  (`t.number` .. `t.custom`) return booleans.
* `t.fromModule`'s predicate is the one throwing and stateful piece of the
  source: it is modelled as `fromModuleAccepts`, an explicit state-passing
  function over the module-type cache that returns `Except String (Bool × cache)`,
  where `Except.error` models `throw new Error(message)` and the threaded
  cache models the process-wide `moduleTypeCache` WeakMap (the checker
  identity that keys the WeakMap becomes the `Checker.id` component of the
  cache key).
-/

/-- The `SymbolFlags.Optional` constant pinned in the source
(`TS_SYMBOL_FLAGS_OPTIONAL = 16777216`). -/
def TS_SYMBOL_FLAGS_OPTIONAL : Nat := 16777216

/-- A `ts.Symbol` as observed by the engine: only its name and flags are ever
read directly; the types attached to a symbol are obtained through the
checker (`getTypeOfSymbol`, `getDeclaredTypeOfSymbol`). -/
structure TsSymbol where
  name : String
  flags : Nat
deriving DecidableEq, Repr

/-- A `ts.SourceFile` as observed by the engine: only `fileName` is read. -/
structure SourceFile where
  fileName : String
deriving DecidableEq, Repr

/-- The Type Oracle: every capability the engine consumes from the
`ts.TypeChecker` (and from methods of `ts.Type` / `ts.Symbol`, which the
compiler backs by the checker).  `id` models the object identity of the
checker instance, used only to key the module-type cache (the source keys
its `WeakMap` by the checker object itself). -/
structure Checker (Ty : Type) where
  id : Nat
  isTypeAssignableTo : Ty → Ty → Bool
  getNumberType : Ty
  getStringType : Ty
  getBooleanType : Ty
  getVoidType : Ty
  getUndefinedType : Ty
  getNullType : Ty
  getProperty : Ty → String → Option TsSymbol
  getTypeOfSymbol : TsSymbol → Ty
  getDeclaredTypeOfSymbol : TsSymbol → Ty
  getNumberIndexType : Ty → Option Ty
  isUnion : Ty → Bool
  unionTypes : Ty → List Ty
  getSymbolAtLocation : SourceFile → Option TsSymbol
  getAmbientModules : List TsSymbol
  getExportsOfModule : TsSymbol → List TsSymbol

/-- The `ts.Program` capabilities the engine consumes.  `resolveModuleName`
models `ts.resolveModuleName(moduleName, containingFile, compilerOptions,
ts.sys).resolvedModule?.resolvedFileName`: the compiler options and the file
system are ambient state of the program, so they are folded into the field. -/
structure Program (Ty : Type) where
  getCurrentDirectory : String
  resolveModuleName : String → String → Option String
  getSourceFile : String → Option SourceFile

/-- The `SchemaContext` passed to every check: a checker (required), an
optional program handle and an optional current source file. -/
structure SchemaContext (Ty : Type) where
  checker : Checker Ty
  program : Option (Program Ty) := none
  sourceFile : Option SourceFile := none

/-- The predicate type `AcceptsFn = (type, ctx) => boolean` of the source. -/
abbrev AcceptsFn (Ty : Type) := Ty → SchemaContext Ty → Bool

/-- A type schema: wraps an accepting predicate and an optionality flag,
exactly the two (readonly) fields of the source's `TypeSchema` class, with
the constructor's `isOptional = false` default. -/
structure TypeSchema (Ty : Type) where
  _accepts : AcceptsFn Ty
  _isOptional : Bool := false

/-- The `schema` helper: `(check) => new TypeSchema(check)`. -/
def schema {Ty : Type} (check : AcceptsFn Ty) : TypeSchema Ty :=
  { _accepts := check }

/-- The evaluator entry point `isAssignableTo(ctx, type, schema)`. -/
def isAssignableTo {Ty : Type} (ctx : SchemaContext Ty) (type : Ty)
    (s : TypeSchema Ty) : Bool :=
  s._accepts type ctx

/-- Builder `t.number()`. -/
def t.number {Ty : Type} : TypeSchema Ty :=
  schema fun type ctx => ctx.checker.isTypeAssignableTo type ctx.checker.getNumberType

/-- Builder `t.string()`. -/
def t.string {Ty : Type} : TypeSchema Ty :=
  schema fun type ctx => ctx.checker.isTypeAssignableTo type ctx.checker.getStringType

/-- Builder `t.boolean()`. -/
def t.boolean {Ty : Type} : TypeSchema Ty :=
  schema fun type ctx => ctx.checker.isTypeAssignableTo type ctx.checker.getBooleanType

/-- Builder `t.void()`. -/
def t.void {Ty : Type} : TypeSchema Ty :=
  schema fun type ctx => ctx.checker.isTypeAssignableTo type ctx.checker.getVoidType

/-- Builder `t.undefined()`. -/
def t.undefined {Ty : Type} : TypeSchema Ty :=
  schema fun type ctx => ctx.checker.isTypeAssignableTo type ctx.checker.getUndefinedType

/-- Builder `t.null()`. -/
def t.null {Ty : Type} : TypeSchema Ty :=
  schema fun type ctx => ctx.checker.isTypeAssignableTo type ctx.checker.getNullType

/-- Builder `t.any()`: always accepts. -/
def t.any {Ty : Type} : TypeSchema Ty :=
  schema fun _ _ => true

/-- Builder `t.unknown()`: always accepts. -/
def t.unknown {Ty : Type} : TypeSchema Ty :=
  schema fun _ _ => true

/-- Builder `t.object(shape)`.  The shape, a JavaScript record iterated with
`Object.entries`, is modelled as an association list.  For each entry: a
missing property symbol is accepted iff the property schema is optional; a
present symbol carrying the `Optional` flag fails the whole object when the
property schema is not optional; otherwise the property's type (via
`checker.getTypeOfSymbol`) is checked recursively. -/
def t.object {Ty : Type} (shape : List (String × TypeSchema Ty)) : TypeSchema Ty :=
  schema fun type ctx =>
    shape.all fun entry =>
      match ctx.checker.getProperty type entry.1 with
      | none => entry.2._isOptional
      | some propSymbol =>
        if !entry.2._isOptional && (propSymbol.flags &&& TS_SYMBOL_FLAGS_OPTIONAL != 0) then
          false
        else
          entry.2._accepts (ctx.checker.getTypeOfSymbol propSymbol) ctx

/-- Builder `t.array(element)`: requires a numeric index type and checks the
element schema against it. -/
def t.array {Ty : Type} (element : TypeSchema Ty) : TypeSchema Ty :=
  schema fun type ctx =>
    match ctx.checker.getNumberIndexType type with
    | none => false
    | some indexType => element._accepts indexType ctx

/-- Builder `t.union(...members)` (the variadic parameter becomes a list):
a union candidate is accepted iff every constituent satisfies some member
schema; a non-union candidate iff some member schema accepts it directly. -/
def t.union {Ty : Type} (members : List (TypeSchema Ty)) : TypeSchema Ty :=
  schema fun type ctx =>
    if ctx.checker.isUnion type then
      (ctx.checker.unionTypes type).all fun member =>
        members.any fun m => m._accepts member ctx
    else
      members.any fun m => m._accepts type ctx

/-- Builder `t.intersection(...members)`: every member schema must accept the
candidate as-is. -/
def t.intersection {Ty : Type} (members : List (TypeSchema Ty)) : TypeSchema Ty :=
  schema fun type ctx => members.all fun m => m._accepts type ctx

/-- Builder `t.custom(predicate)`: wraps the predicate verbatim. -/
def t.custom {Ty : Type} (predicate : AcceptsFn Ty) : TypeSchema Ty :=
  schema predicate

/-- Modifier `.optional()`: a new node whose predicate is that of
`t.union(this, t.undefined())` and whose flag is `true`. -/
def TypeSchema.optional {Ty : Type} (self : TypeSchema Ty) : TypeSchema Ty :=
  { _accepts := (t.union [self, t.undefined])._accepts, _isOptional := true }

/-- Modifier `.nullable()`: `t.union(this, t.null())`. -/
def TypeSchema.nullable {Ty : Type} (self : TypeSchema Ty) : TypeSchema Ty :=
  t.union [self, t.null]

/-- Modifier `.nullish()`: `this.nullable().optional()`. -/
def TypeSchema.nullish {Ty : Type} (self : TypeSchema Ty) : TypeSchema Ty :=
  self.nullable.optional

/-- Message of the error thrown when `program` is missing from the context. -/
def missingProgramMsg : String :=
  "t.fromModule() requires `program` in the SchemaContext."

/-- Message of the error thrown when a relative specifier is used without a
`sourceFile` in the context. -/
def missingSourceFileMsg : String :=
  "t.fromModule() requires `sourceFile` in the SchemaContext for relative module specifiers."

/-- Message of the error thrown when the export cannot be resolved; the source
builds it from the export and module names. -/
def unresolvedMsg (moduleName exportName : String) : String :=
  "t.fromModule(): could not resolve export \"" ++ exportName ++
    "\" from module \"" ++ moduleName ++ "\"."

/-- Cache key of the module-type cache.  The source keys a `WeakMap` by the
checker object and each per-checker `Map` by
`JSON.stringify([moduleName, exportName, isRelative ? sourceFile.fileName : null])`;
here the two levels are flattened into one composite key whose first
component is the checker's identity. -/
abbrev ModuleCacheKey := Nat × String × String × Option String

/-- The process-wide `moduleTypeCache`, modelled as explicit state: an
association list from composite keys to the cached outcome (`some T` for a
resolved type, `none` for the stored `null` "not found" marker). -/
abbrev ModuleTypeCache (Ty : Type) := List (ModuleCacheKey × Option Ty)

/-- Lookup in the module-type cache, modelling `cache.has` / `cache.get`. -/
def cacheLookup {Ty : Type} (cache : ModuleTypeCache Ty) (key : ModuleCacheKey) :
    Option (Option Ty) :=
  match cache with
  | [] => none
  | (k, v) :: rest => if k = key then some v else cacheLookup rest key

/-- A specifier is relative iff it starts with "./" or "../", the source's
`moduleName.startsWith("./") || moduleName.startsWith("../")`.  Prefix testing
is spelled on the character lists so that concrete instances evaluate. -/
def isRelativeSpecifier (moduleName : String) : Bool :=
  List.isPrefixOf "./".data moduleName.data ||
    List.isPrefixOf "../".data moduleName.data

/-- The composite cache key computed inside `t.fromModule`'s predicate. -/
def moduleCacheKey (checkerId : Nat) (moduleName exportName : String)
    (sourceFile : Option SourceFile) : ModuleCacheKey :=
  (checkerId, moduleName, exportName,
    if isRelativeSpecifier moduleName then sourceFile.map (fun sf => sf.fileName) else none)

/-- Translation of `resolveModuleType` (src/index.ts lines 337-381): resolve
the module with the host's algorithm, fall back to ambient modules, then look
the export up among the module's exports; `none` models the `null` returned
when either the module or the export cannot be found. -/
def resolveModuleType {Ty : Type} (checker : Checker Ty) (program : Program Ty)
    (moduleName exportName : String) (sourceFile : Option SourceFile) : Option Ty :=
  let containingFile :=
    match sourceFile with
    | some sf => sf.fileName
    | none => program.getCurrentDirectory ++ "/__typezod__.ts"
  let resolvedSymbol : Option TsSymbol :=
    match program.resolveModuleName moduleName containingFile with
    | some resolvedFileName =>
      match program.getSourceFile resolvedFileName with
      | some resolvedSf => checker.getSymbolAtLocation resolvedSf
      | none => none
    | none => none
  let moduleSymbol : Option TsSymbol :=
    match resolvedSymbol with
    | some s => some s
    | none =>
      let quotedName := "\"" ++ moduleName ++ "\""
      checker.getAmbientModules.find? fun s => s.name == quotedName
  match moduleSymbol with
  | none => none
  | some moduleSymbol =>
    match (checker.getExportsOfModule moduleSymbol).find? (fun s => s.name == exportName) with
    | none => none
    | some exportSymbol => some (checker.getDeclaredTypeOfSymbol exportSymbol)

/-- Translation of the predicate built by `t.fromModule(moduleName, exportName)`
(src/index.ts lines 263-310).  The thrown errors become `Except.error` and the
mutation of the process-wide cache becomes explicit state passing: the result
carries the cache after the evaluation.

Order of operations, as in the source: check `program`; check `sourceFile`
for relative specifiers; compute the cache key; resolve and store only when
the key is absent (`!cache.has(cacheKey)`); read the stored outcome back and
either throw the unresolved-export error (stored `null`) or delegate to the
checker's assignability test against the cached target type. -/
def fromModuleAccepts {Ty : Type} (moduleName exportName : String) (type : Ty)
    (ctx : SchemaContext Ty) (cache : ModuleTypeCache Ty) :
    Except String (Bool × ModuleTypeCache Ty) :=
  match ctx.program with
  | none => .error missingProgramMsg
  | some program =>
    if isRelativeSpecifier moduleName && ctx.sourceFile.isNone then
      .error missingSourceFileMsg
    else
      let cacheKey := moduleCacheKey ctx.checker.id moduleName exportName ctx.sourceFile
      let cache1 :=
        if (cacheLookup cache cacheKey).isSome then cache
        else (cacheKey,
          resolveModuleType ctx.checker program moduleName exportName ctx.sourceFile) :: cache
      match cacheLookup cache1 cacheKey with
      | some (some targetType) => .ok (ctx.checker.isTypeAssignableTo type targetType, cache1)
      | _ => .error (unresolvedMsg moduleName exportName)

/-!
Concrete oracle instances over `Ty := Nat`, used to evaluate the theorems
below on closed inputs.
-/

/-- A minimal checker over `Nat` types: assignability is equality of the
numeric codes, nothing is a union, no properties, no modules. -/
def natChecker : Checker Nat :=
  { id := 0
    isTypeAssignableTo := fun a b => a == b
    getNumberType := 0
    getStringType := 1
    getBooleanType := 2
    getVoidType := 3
    getUndefinedType := 4
    getNullType := 5
    getProperty := fun _ _ => none
    getTypeOfSymbol := fun _ => 0
    getDeclaredTypeOfSymbol := fun _ => 0
    getNumberIndexType := fun _ => none
    isUnion := fun _ => false
    unionTypes := fun _ => []
    getSymbolAtLocation := fun _ => none
    getAmbientModules := []
    getExportsOfModule := fun _ => [] }

/-- A context holding only the minimal checker. -/
def natCtx : SchemaContext Nat := { checker := natChecker }

/-- A property symbol carrying the TypeScript `Optional` flag. -/
def optSym : TsSymbol := { name := "y", flags := TS_SYMBOL_FLAGS_OPTIONAL }

/-- A property symbol without the `Optional` flag. -/
def plainSym : TsSymbol := { name := "x", flags := 0 }

/-- A checker whose types all expose a non-optional property "x" of type `0`
(number) and a declared-optional property "y"; type `1` additionally exposes
an unrelated property "z". -/
def propChecker : Checker Nat :=
  { natChecker with
    getProperty := fun type key =>
      if key = "x" then some plainSym
      else if key = "y" then some optSym
      else if key = "z" && type == 1 then some { name := "z", flags := 0 } else none
    getTypeOfSymbol := fun _ => 0 }

/-- Context for the property-introspection witnesses. -/
def propCtx : SchemaContext Nat := { checker := propChecker }

/-- A program handle that resolves the specifier "fake-lib" to the file
"/proj/fake-lib.ts" and nothing else. -/
def resolvingProgram : Program Nat :=
  { getCurrentDirectory := "/proj"
    resolveModuleName := fun moduleName _ =>
      if moduleName = "fake-lib" then some "/proj/fake-lib.ts" else none
    getSourceFile := fun fileName =>
      if fileName = "/proj/fake-lib.ts" then some { fileName := fileName } else none }

/-- A program handle that resolves no module at all. -/
def emptyProgram : Program Nat :=
  { getCurrentDirectory := "/proj"
    resolveModuleName := fun _ _ => none
    getSourceFile := fun _ => none }

/-- Module symbol of the simulated "fake-lib" module. -/
def fakeLibSym : TsSymbol := { name := "fake-lib", flags := 0 }

/-- Export symbol "Gadget" of the simulated "fake-lib" module. -/
def gadgetSym : TsSymbol := { name := "Gadget", flags := 0 }

/-- A checker that recognises "/proj/fake-lib.ts" as the module `fakeLibSym`,
whose single export "Gadget" declares the type `7`. -/
def fakeLibChecker : Checker Nat :=
  { natChecker with
    getSymbolAtLocation := fun sf =>
      if sf.fileName = "/proj/fake-lib.ts" then some fakeLibSym else none
    getExportsOfModule := fun s => if s = fakeLibSym then [gadgetSym] else []
    getDeclaredTypeOfSymbol := fun s => if s = gadgetSym then 7 else 0 }

/-- Like `fakeLibChecker`, but the resolved module has no exports at all. -/
def noExportChecker : Checker Nat :=
  { fakeLibChecker with getExportsOfModule := fun _ => [] }

/-- Context in which "fake-lib" resolves to a module that lacks the requested
export. -/
def ctxResolvedNoExport : SchemaContext Nat :=
  { checker := noExportChecker, program := some resolvingProgram }

/-- Context in which no module (and no ambient module) matches any specifier. -/
def ctxNoModule : SchemaContext Nat :=
  { checker := natChecker, program := some emptyProgram }

/-- Context in which "fake-lib" resolves and exports "Gadget" of type `7`. -/
def ctxFakeLib : SchemaContext Nat :=
  { checker := fakeLibChecker, program := some resolvingProgram }

/-- C1: for every object schema and every shape entry whose property schema is
not optional, if the oracle returns a property symbol for that key carrying
the declared-optional flag, the object schema evaluates to `false` on the
candidate — regardless of the property's type (so in particular even when the
property's type would satisfy the property schema). -/
theorem object_required_rejects_declared_optional {Ty : Type}
    (shape : List (String × TypeSchema Ty)) (ctx : SchemaContext Ty) (c : Ty)
    (key : String) (ps : TypeSchema Ty) (sym : TsSymbol)
    (hmem : (key, ps) ∈ shape) (hreq : ps._isOptional = false)
    (hprop : ctx.checker.getProperty c key = some sym)
    (hflag : sym.flags &&& TS_SYMBOL_FLAGS_OPTIONAL ≠ 0) :
    isAssignableTo ctx c (t.object shape) = false := by
  simp only [isAssignableTo, t.object, schema]
  rw [List.all_eq_false]
  refine ⟨(key, ps), hmem, ?_⟩
  simp [hprop, hreq, hflag]

/-- Witness for C1: the schema `{y: number}` (with `y` required) rejects a
candidate whose property `y` is present but declared optional. -/
theorem object_required_rejects_declared_optional_witness :
    (@t.number Nat)._isOptional = false ∧
    propCtx.checker.getProperty 0 "y" = some optSym ∧
    isAssignableTo propCtx 0 (t.object [("y", t.number)]) = false := by
  refine ⟨rfl, by simp [propCtx, propChecker], ?_⟩
  exact object_required_rejects_declared_optional [("y", t.number)] propCtx 0
    "y" t.number optSym (List.mem_singleton.mpr rfl) rfl
    (by simp [propCtx, propChecker]) (by decide)

/-- C2: evaluation of `t.union(...members)` — a union candidate (as reported
by the oracle) is accepted iff every constituent is accepted by at least one
member schema, and a non-union candidate is accepted iff at least one member
schema accepts it directly. -/
theorem union_eval_characterization {Ty : Type} (members : List (TypeSchema Ty))
    (ctx : SchemaContext Ty) (c : Ty) :
    isAssignableTo ctx c (t.union members) = true ↔
      (if ctx.checker.isUnion c = true then
        ∀ u ∈ ctx.checker.unionTypes c, ∃ m ∈ members, m._accepts u ctx = true
      else
        ∃ m ∈ members, m._accepts c ctx = true) := by
  simp only [isAssignableTo, t.union, schema]
  by_cases h : ctx.checker.isUnion c
  · simp [h, List.all_eq_true, List.any_eq_true]
  · simp [h, List.any_eq_true]

/-- Witness for C2: under the minimal checker (no candidate is a union),
`t.union(t.string, t.number)` accepts the number type through its second
member. -/
theorem union_eval_characterization_witness :
    isAssignableTo natCtx 0 (t.union [t.string, t.number]) = true :=
  (union_eval_characterization [t.string, t.number] natCtx 0).mpr
    (by simp [natCtx, natChecker, t.number, t.string, schema])

/-- C5: the object-schema evaluation reads the candidate only through
`getProperty` at the declared shape's keys, so two candidates on which the
oracle agrees at every shape key evaluate identically.  Extending a candidate
with an additional property whose key is not in the shape leaves `getProperty`
at the shape keys unchanged, hence never flips acceptance from `true` to
`false`; properties beyond the declared shape are never even consulted. -/
theorem object_eval_depends_only_on_shape_keys {Ty : Type}
    (shape : List (String × TypeSchema Ty)) (ctx : SchemaContext Ty) (c c2 : Ty)
    (h : ∀ entry ∈ shape, ctx.checker.getProperty c2 entry.1 = ctx.checker.getProperty c entry.1) :
    isAssignableTo ctx c2 (t.object shape) = isAssignableTo ctx c (t.object shape) := by
  simp only [isAssignableTo, t.object, schema]
  induction shape with
  | nil => rfl
  | cons hd tl ih =>
    simp only [List.all_cons]
    rw [h hd (List.mem_cons_self hd tl),
      ih fun entry hmem => h entry (List.mem_cons_of_mem hd hmem)]

/-- Witness for C5: candidate `1` extends candidate `0` with an extra
property "z" not in the shape `{x: any}`; both evaluate to `true`. -/
theorem object_eval_depends_only_on_shape_keys_witness :
    isAssignableTo propCtx 1 (t.object [("x", t.any)]) =
      isAssignableTo propCtx 0 (t.object [("x", t.any)]) ∧
    isAssignableTo propCtx 0 (t.object [("x", t.any)]) = true := by
  refine ⟨?_, by simp [isAssignableTo, t.object, schema, t.any, propCtx, propChecker, plainSym]⟩
  exact object_eval_depends_only_on_shape_keys [("x", t.any)] propCtx 0 1
    (by intro entry hmem
        rw [List.mem_singleton] at hmem
        subst hmem
        rfl)

/-- C6: `.nullish()` is definitionally `.nullable().optional()`; the resulting
node carries `isOptional = true`; on a non-union candidate it accepts exactly
when the base accepts it, or the candidate is assignable to `null`, or to
`undefined` (so it adds `null` and `undefined` to the base and rejects
candidates unrelated to all three); on a union candidate it accepts exactly
when every constituent is accepted by the nullable base or is assignable to
`undefined` (which covers the unions base|null and base|null|undefined). -/
theorem nullish_equiv_nullable_optional {Ty : Type} (s : TypeSchema Ty) :
    s.nullish = s.nullable.optional ∧
    s.nullish._isOptional = true ∧
    (∀ (ctx : SchemaContext Ty) (c : Ty), ctx.checker.isUnion c = false →
      s.nullish._accepts c ctx =
        (s._accepts c ctx ||
          ctx.checker.isTypeAssignableTo c ctx.checker.getNullType ||
          ctx.checker.isTypeAssignableTo c ctx.checker.getUndefinedType)) ∧
    (∀ (ctx : SchemaContext Ty) (c : Ty), ctx.checker.isUnion c = true →
      (s.nullish._accepts c ctx = true ↔
        ∀ u ∈ ctx.checker.unionTypes c,
          s.nullable._accepts u ctx = true ∨
          ctx.checker.isTypeAssignableTo u ctx.checker.getUndefinedType = true)) := by
  refine ⟨rfl, rfl, ?_, ?_⟩
  · intro ctx c h
    simp [TypeSchema.nullish, TypeSchema.optional, TypeSchema.nullable, t.union,
      t.undefined, t.null, schema, h, Bool.or_assoc]
  · intro ctx c h
    simp [TypeSchema.nullish, TypeSchema.optional, TypeSchema.nullable, t.union,
      t.undefined, schema, h, List.all_eq_true]

/-- Witness for C6: for the base `t.number` under the minimal checker, the
nullish node is optional, accepts the number type `0` and the null type `5`
and the undefined type `4`, and rejects the unrelated string type `1`. -/
theorem nullish_equiv_nullable_optional_witness :
    (@t.number Nat).nullish._isOptional = true ∧
    (@t.number Nat).nullish._accepts 0 natCtx = true ∧
    (@t.number Nat).nullish._accepts 5 natCtx = true ∧
    (@t.number Nat).nullish._accepts 4 natCtx = true ∧
    (@t.number Nat).nullish._accepts 1 natCtx = false := by
  have h := nullish_equiv_nullable_optional (@t.number Nat)
  refine ⟨h.2.1, ?_, ?_, ?_, ?_⟩ <;>
    rw [h.2.2.1 natCtx _ rfl] <;>
      simp [t.number, schema, natCtx, natChecker]

/-- C8: the modifiers are pure functions of the receiver: each returns a node
whose fields are given explicitly in terms of the receiver's original fields
(`optional` pairs the `union(self, undefined)` predicate with the flag `true`,
`nullable` is `union(self, null)`, `nullish` is `nullable().optional()`), and
the receiver keeps its own predicate and flag (structure eta), which is the
shallow-embedding rendering of "never mutates the receiver, always allocates
a new node": a base schema reused in several positions contributes its
original fields to every derived node independently. -/
theorem modifiers_never_mutate_receiver {Ty : Type} (s : TypeSchema Ty) :
    s.optional = { _accepts := (t.union [s, t.undefined])._accepts, _isOptional := true } ∧
    s.nullable = t.union [s, t.null] ∧
    s.nullish = s.nullable.optional ∧
    s.optional._isOptional = true ∧
    s.nullable._isOptional = false ∧
    s.optional.nullable = t.union [s.optional, t.null] ∧
    s = { _accepts := s._accepts, _isOptional := s._isOptional } :=
  ⟨rfl, rfl, rfl, rfl, rfl, rfl, rfl⟩

/-- C9: the wrapping combinators build their node through `schema`, whose
`isOptional` defaults to `false`; hence `t.union`, `t.intersection` and
`.nullable()` always return a non-optional node whatever their arguments, and
modifier order matters: `.optional().nullable()` is not optional while
`.nullable().optional()` is. -/
theorem wrappers_discard_optional_flag {Ty : Type} (s : TypeSchema Ty)
    (members : List (TypeSchema Ty)) :
    (t.union members)._isOptional = false ∧
    (t.intersection members)._isOptional = false ∧
    s.nullable._isOptional = false ∧
    s.optional.nullable._isOptional = false ∧
    s.nullable.optional._isOptional = true :=
  ⟨rfl, rfl, rfl, rfl, rfl⟩

/-- C10: with an empty shape or an empty member list the universal
quantifications are vacuous, so `t.object({})` and `t.intersection()` accept
every candidate; `t.union()` rejects every candidate — its existential over
zero members fails directly for a non-union candidate, and fails on each
constituent of a union candidate (TypeScript union types always have at least
one constituent, which the hypothesis records for the abstract oracle). -/
theorem empty_combinators_vacuous {Ty : Type} (ctx : SchemaContext Ty) (c : Ty)
    (hu : ctx.checker.isUnion c = true → ctx.checker.unionTypes c ≠ []) :
    isAssignableTo ctx c (t.object []) = true ∧
    isAssignableTo ctx c (t.intersection []) = true ∧
    isAssignableTo ctx c (t.union []) = false := by
  refine ⟨rfl, rfl, ?_⟩
  simp only [isAssignableTo, t.union, schema]
  by_cases h : ctx.checker.isUnion c
  · cases h2 : ctx.checker.unionTypes c with
    | nil => exact absurd h2 (hu h)
    | cons hd tl => simp [h, h2]
  · simp [h]

/-- Witness for C10: under the minimal checker (no unions) the empty object
and intersection schemas accept the candidate `0` and the empty union schema
rejects it. -/
theorem empty_combinators_vacuous_witness :
    isAssignableTo natCtx 0 (t.object []) = true ∧
    isAssignableTo natCtx 0 (t.intersection []) = true ∧
    isAssignableTo natCtx 0 (t.union []) = false :=
  empty_combinators_vacuous natCtx 0 (by intro h; simp [natCtx, natChecker] at h)

/-- C7: evaluating a fromModule schema without a program handle raises the
missing-program error, and evaluating one whose specifier is relative
(starts with "./" or "../") without a source file raises the
missing-source-file error.  Both conclusions hold for an arbitrary cache and
an arbitrary oracle, so the errors are raised before any resolution or cache
access is attempted. -/
theorem fromModule_config_errors {Ty : Type} (moduleName exportName : String)
    (type : Ty) (ctx : SchemaContext Ty) (cache : ModuleTypeCache Ty) :
    (ctx.program = none →
      fromModuleAccepts moduleName exportName type ctx cache =
        .error missingProgramMsg) ∧
    (∀ program, ctx.program = some program → isRelativeSpecifier moduleName = true →
      ctx.sourceFile = none →
      fromModuleAccepts moduleName exportName type ctx cache =
        .error missingSourceFileMsg) := by
  constructor
  · intro hp
    simp [fromModuleAccepts, hp]
  · intro program hp hrel hsf
    simp [fromModuleAccepts, hp, hrel, hsf]

/-- Witness for C7: with no program handle the missing-program error is
raised, and with a relative specifier "./file-lib" and no source file the
missing-source-file error is raised. -/
theorem fromModule_config_errors_witness :
    fromModuleAccepts "fake-lib" "Gadget" 0 natCtx [] =
      .error missingProgramMsg ∧
    fromModuleAccepts "./file-lib" "Widget" 0 ctxNoModule [] =
      .error missingSourceFileMsg := by
  constructor
  · exact (fromModule_config_errors "fake-lib" "Gadget" 0 natCtx []).1 rfl
  · exact (fromModule_config_errors "./file-lib" "Widget" 0 ctxNoModule []).2
      emptyProgram rfl (by decide) rfl

/-- C4: the module-type cache is write-once per composite key.  On a miss the
evaluation stores the resolution outcome for the key and answers from it; on
a hit the evaluation leaves the cache unchanged and its answer is a function
of the stored outcome alone — in particular no resolution field of the
context appears on the right-hand side, so nothing is re-resolved — and a
stored "not found" raises the same unresolved-export error every time. -/
theorem fromModule_cache_write_once {Ty : Type} (moduleName exportName : String)
    (type : Ty) (ctx : SchemaContext Ty) (program : Program Ty)
    (cache : ModuleTypeCache Ty)
    (hprog : ctx.program = some program)
    (hguard : (isRelativeSpecifier moduleName && ctx.sourceFile.isNone) = false) :
    (cacheLookup cache
        (moduleCacheKey ctx.checker.id moduleName exportName ctx.sourceFile) = none →
      fromModuleAccepts moduleName exportName type ctx cache =
        match resolveModuleType ctx.checker program moduleName exportName ctx.sourceFile with
        | some targetType =>
          .ok (ctx.checker.isTypeAssignableTo type targetType,
            (moduleCacheKey ctx.checker.id moduleName exportName ctx.sourceFile,
              resolveModuleType ctx.checker program moduleName exportName ctx.sourceFile)
              :: cache)
        | none => .error (unresolvedMsg moduleName exportName)) ∧
    (∀ stored,
      cacheLookup cache
        (moduleCacheKey ctx.checker.id moduleName exportName ctx.sourceFile) = some stored →
      fromModuleAccepts moduleName exportName type ctx cache =
        match stored with
        | some targetType => .ok (ctx.checker.isTypeAssignableTo type targetType, cache)
        | none => .error (unresolvedMsg moduleName exportName)) := by
  constructor
  · intro hmiss
    simp only [fromModuleAccepts, hprog, hguard, Bool.false_eq_true, if_false, hmiss,
      Option.isSome_none, cacheLookup, if_pos]
    cases resolveModuleType ctx.checker program moduleName exportName ctx.sourceFile <;> rfl
  · intro stored hhit
    simp only [fromModuleAccepts, hprog, hguard, Bool.false_eq_true, if_false, hhit,
      Option.isSome_some, if_pos]
    cases stored <;> rfl

/-- Witness for C4: a first evaluation of `fromModule("fake-lib", "Gadget")`
on an empty cache resolves the export to the type `7`, stores it under the
composite key and accepts the candidate `7`; a later evaluation on the
resulting cache reuses the entry unchanged; and a later evaluation on a cache
storing "not found" for the key raises the unresolved-export error. -/
theorem fromModule_cache_write_once_witness :
    fromModuleAccepts "fake-lib" "Gadget" 7 ctxFakeLib [] =
      .ok (true, [((0, "fake-lib", "Gadget", none), some 7)]) ∧
    fromModuleAccepts "fake-lib" "Gadget" 7 ctxFakeLib
        [((0, "fake-lib", "Gadget", none), some 7)] =
      .ok (true, [((0, "fake-lib", "Gadget", none), some 7)]) ∧
    fromModuleAccepts "fake-lib" "Gadget" 7 ctxFakeLib
        [((0, "fake-lib", "Gadget", none), none)] =
      .error (unresolvedMsg "fake-lib" "Gadget") := by
  refine ⟨?_, ?_, ?_⟩
  · have h := (fromModule_cache_write_once "fake-lib" "Gadget" 7 ctxFakeLib
      resolvingProgram [] rfl (by decide)).1 rfl
    rw [h]
    rfl
  · have h := (fromModule_cache_write_once "fake-lib" "Gadget" 7 ctxFakeLib
      resolvingProgram [((0, "fake-lib", "Gadget", none), some 7)] rfl (by decide)).2
      (some 7) (by decide)
    rw [h]
    rfl
  · exact (fromModule_cache_write_once "fake-lib" "Gadget" 7 ctxFakeLib
      resolvingProgram [((0, "fake-lib", "Gadget", none), none)] rfl (by decide)).2
      none (by decide)

/-- Counterexample for C3: the two unresolved-export failure modes are not
distinguishable.  With the same specifier "fake-lib" and export "Missing",
a context in which the module resolves but lacks the export and a context in
which no module (ambient modules included) matches the specifier raise the
very same error value. -/
theorem fromModule_error_modes_identical :
    fromModuleAccepts "fake-lib" "Missing" 0 ctxResolvedNoExport [] =
      .error (unresolvedMsg "fake-lib" "Missing") ∧
    fromModuleAccepts "fake-lib" "Missing" 0 ctxNoModule [] =
      .error (unresolvedMsg "fake-lib" "Missing") :=
  ⟨rfl, rfl⟩

/-- C3 as amended: whenever resolution yields no type — whether the module
resolved without the named export or no module matched the specifier, both of
which make `resolveModuleType` return `none` — the evaluation raises the one
unresolved-export error built from the specifier and export name, the same
error value in both failure modes. -/
theorem fromModule_unresolved_single_error {Ty : Type} (moduleName exportName : String)
    (type : Ty) (ctx : SchemaContext Ty) (program : Program Ty)
    (cache : ModuleTypeCache Ty)
    (hprog : ctx.program = some program)
    (hguard : (isRelativeSpecifier moduleName && ctx.sourceFile.isNone) = false)
    (hmiss : cacheLookup cache
      (moduleCacheKey ctx.checker.id moduleName exportName ctx.sourceFile) = none)
    (hres : resolveModuleType ctx.checker program moduleName exportName ctx.sourceFile = none) :
    fromModuleAccepts moduleName exportName type ctx cache =
      .error (unresolvedMsg moduleName exportName) := by
  have h := (fromModule_cache_write_once moduleName exportName type ctx program cache
    hprog hguard).1 hmiss
  rw [h, hres]

/-- Witness for the amended C3: in the no-module context the evaluation
raises the unresolved-export error. -/
theorem fromModule_unresolved_single_error_witness :
    fromModuleAccepts "fake-lib" "Missing" 0 ctxNoModule [] =
      .error (unresolvedMsg "fake-lib" "Missing") :=
  fromModule_unresolved_single_error "fake-lib" "Missing" 0 ctxNoModule
    emptyProgram [] rfl (by decide) (by decide) (by decide)
